import Mathlib

/-!
Shallow embedding of the issue-tracker backend (src/backend of the
repository): the Issue data model (model.py), the pydantic request schemas
(schemas.py), the CRUD / bulk / query / stats endpoint bodies (main.py) and
the CSV import pipeline (csv_import.py).

The persistent store is modelled as a `List Issue` in insertion order;
timestamps are `Nat`; SQL behaviour that the code relies on (the `ilike`
operator, `ORDER BY created_at DESC` with stable ties, `GROUP BY`) is
modelled explicitly below.
-/

namespace IssueTracker

/-- Status enumeration, from model.py `StatusEnum`. -/
inductive StatusEnum where
  | OPEN
  | IN_PROGRESS
  | RESOLVED
  | CLOSED
  deriving DecidableEq

/-- Priority enumeration, from model.py `PriorityEnum`. -/
inductive PriorityEnum where
  | LOW
  | MEDIUM
  | HIGH
  | CRITICAL
  deriving DecidableEq

/-- The `.value` string of a `StatusEnum` member (model.py). -/
def StatusEnum.value : StatusEnum → String
  | .OPEN => "open"
  | .IN_PROGRESS => "in_progress"
  | .RESOLVED => "resolved"
  | .CLOSED => "closed"

/-- The `.value` string of a `PriorityEnum` member (model.py). -/
def PriorityEnum.value : PriorityEnum → String
  | .LOW => "low"
  | .MEDIUM => "medium"
  | .HIGH => "high"
  | .CRITICAL => "critical"

/-- A persisted issue record, from model.py `Issue`.  `created_at` and
`updated_at` are abstract clock readings; `description`, `assignee` and
`reporter` are nullable columns. -/
structure Issue where
  id : Nat
  title : String
  description : Option String
  status : StatusEnum
  priority : PriorityEnum
  assignee : Option String
  reporter : Option String
  created_at : Nat
  updated_at : Nat
  version : Nat
  deriving DecidableEq

/-- A validated create payload, from schemas.py `IssueCreate`. -/
structure IssueCreate where
  title : String
  description : Option String
  status : StatusEnum
  priority : PriorityEnum
  assignee : Option String
  reporter : Option String
  deriving DecidableEq

/-- Stand-in for the message of the pydantic `ValidationError` raised when a
string field violates its length bounds (the exact library text is longer;
only its difference from the importer's own title message matters here). -/
def validationErrorMsg : String :=
  "1 validation error for IssueCreate: string does not satisfy length bounds"

/-- Pydantic validation performed when `IssueCreate(...)` is constructed
(schemas.py lines 8-15): `title` has `min_length=1, max_length=200`,
`assignee` and `reporter` have `max_length=100`.  Construction raises
`ValidationError` (modelled as `Except.error`) when a bound is violated. -/
def IssueCreate.validate (title : String) (description : Option String)
    (status : StatusEnum) (priority : PriorityEnum)
    (assignee reporter : Option String) : Except String IssueCreate :=
  if title.length < 1 then .error validationErrorMsg
  else if 200 < title.length then .error validationErrorMsg
  else if 100 < (assignee.getD "").length then .error validationErrorMsg
  else if 100 < (reporter.getD "").length then .error validationErrorMsg
  else .ok { title := title, description := description, status := status,
             priority := priority, assignee := assignee, reporter := reporter }

/-- One CSV data row as produced by `csv.DictReader`: a partial mapping from
the known column names to raw string values (`none` models a missing
column). -/
structure CSVRow where
  title : Option String := none
  description : Option String := none
  status : Option String := none
  priority : Option String := none
  assignee : Option String := none
  reporter : Option String := none
  deriving DecidableEq

/-- Python's `str.strip()`: drop whitespace from both ends.  (Executable
model of the library routine; `String.trim` itself is byte-index based and
does not reduce in the kernel.) -/
def strTrim (s : String) : String :=
  { data := ((s.data.dropWhile Char.isWhitespace).reverse.dropWhile
      Char.isWhitespace).reverse }

/-- Python's `str.lower()`: lowercase every character. -/
def strLower (s : String) : String :=
  { data := s.data.map Char.toLower }

/-- Status token normalization from csv_import.py lines 21-32:
`row.get('status', 'open').strip().lower()` followed by the if/elif chain
with `OPEN` as the default. -/
def parseStatusToken (raw : String) : StatusEnum :=
  let s := strLower (strTrim raw)
  if s == "in progress" || s == "in_progress" then .IN_PROGRESS
  else if s == "open" then .OPEN
  else if s == "resolved" then .RESOLVED
  else if s == "closed" then .CLOSED
  else .OPEN

/-- Priority token normalization from csv_import.py lines 34-45 with
`MEDIUM` as the default. -/
def parsePriorityToken (raw : String) : PriorityEnum :=
  let s := strLower (strTrim raw)
  if s == "low" then .LOW
  else if s == "medium" then .MEDIUM
  else if s == "high" then .HIGH
  else if s == "critical" then .CRITICAL
  else .MEDIUM

/-- Status of a CSV row: the raw token defaults to "open" when the column is
missing (csv_import.py line 22). -/
def rowStatus (row : CSVRow) : StatusEnum :=
  parseStatusToken (row.status.getD "open")

/-- Priority of a CSV row: the raw token defaults to "medium" when the
column is missing (csv_import.py line 35). -/
def rowPriority (row : CSVRow) : PriorityEnum :=
  parsePriorityToken (row.priority.getD "medium")

/-- Python's `s or None` idiom on a trimmed string: the empty string becomes
an absent value (csv_import.py lines 50-54). -/
def emptyToNone (s : String) : Option String :=
  if s = "" then none else some s

/-- The row-content part of csv_import.py `parse_csv_row` (lines 20-70), with
the row number left out: normalize status and priority, trim the string
fields, construct the `IssueCreate` (which itself validates, see
`IssueCreate.validate`) inside the `try`, then run the explicit empty-title
check.  An error value is the message string that the caller pairs with the
row number. -/
def parseRowCore (row : CSVRow) : Except String IssueCreate :=
  match IssueCreate.validate (strTrim (row.title.getD ""))
      (emptyToNone (strTrim (row.description.getD "")))
      (rowStatus row) (rowPriority row)
      (emptyToNone (strTrim (row.assignee.getD "")))
      (emptyToNone (strTrim (row.reporter.getD ""))) with
  | .error e => .error ("Parsing error: " ++ e)
  | .ok issue =>
      if issue.title = "" then .error "Title is required and cannot be empty"
      else .ok issue

/-- A row-level import error: `{"row": ..., "error": ...}`. -/
structure RowError where
  row : Nat
  error : String
  deriving DecidableEq

/-- csv_import.py `parse_csv_row`: attach the row number to the error. -/
def parse_csv_row (row : CSVRow) (row_number : Nat) : Except RowError IssueCreate :=
  match parseRowCore row with
  | .ok issue => .ok issue
  | .error msg => .error { row := row_number, error := msg }

/-- A freshly persisted record built from a validated create payload:
`Issue(**issue.model_dump())` plus the column defaults of model.py
(`version = 1`, both timestamps set to the insertion clock). -/
def createRecord (c : IssueCreate) (newId now : Nat) : Issue :=
  { id := newId, title := c.title, description := c.description,
    status := c.status, priority := c.priority, assignee := c.assignee,
    reporter := c.reporter, created_at := now, updated_at := now, version := 1 }

/-- main.py `create_issue` (lines 41-57): persist a new record and return it. -/
def create_issue (c : IssueCreate) (newId now : Nat) (store : List Issue) :
    List Issue × Issue :=
  (store ++ [createRecord c newId now], createRecord c newId now)

/-- The aggregate result of a CSV import, from schemas.py `CSVImportResult`. -/
structure CSVImportResult where
  total_rows : Nat
  successful : Nat
  failed : Nat
  errors : List RowError
  deriving DecidableEq

/-- The row loop of csv_import.py `import_issues_from_csv` (lines 98-121),
processing the rows from `row_number` on: a failed parse records its error
and skips persistence; a successful parse persists a new record in its own
committed transaction.  (In this model persistence itself cannot fail, so the
`Database error` branch of the source is unreachable.) -/
def importRows : List CSVRow → Nat → List Issue → Nat → Nat →
    CSVImportResult × List Issue
  | [], _, store, _, _ => ({ total_rows := 0, successful := 0, failed := 0, errors := [] }, store)
  | row :: rest, row_number, store, nextId, now =>
    match parse_csv_row row row_number with
    | .error err =>
        let r := importRows rest (row_number + 1) store nextId now
        ({ total_rows := r.1.total_rows + 1, successful := r.1.successful,
           failed := r.1.failed + 1, errors := err :: r.1.errors }, r.2)
    | .ok issue =>
        let r := importRows rest (row_number + 1)
          (store ++ [createRecord issue nextId now]) (nextId + 1) now
        ({ total_rows := r.1.total_rows + 1, successful := r.1.successful + 1,
           failed := r.1.failed, errors := r.1.errors }, r.2)

/-- csv_import.py `import_issues_from_csv` (lines 73-128): data rows are
numbered from 2 (row 1 is the header). -/
def import_issues_from_csv (rows : List CSVRow) (store : List Issue)
    (nextId now : Nat) : CSVImportResult × List Issue :=
  importRows rows 2 store nextId now

/-- An update payload, from schemas.py `IssueUpdate`.  The outer `Option`
models the pydantic set/unset distinction observed by
`model_dump(exclude_unset=True)`; for the nullable columns the inner
`Option` is the value.  `version` is the caller's expected version for
optimistic locking. -/
structure IssueUpdate where
  title : Option String := none
  description : Option (Option String) := none
  status : Option StatusEnum := none
  priority : Option PriorityEnum := none
  assignee : Option (Option String) := none
  reporter : Option (Option String) := none
  version : Option Nat := none

/-- Typed failures of the store operations (main.py raises `HTTPException`
404 and 409 respectively). -/
inductive StoreError where
  | NotFound
  | VersionConflict (expected actual : Nat)
  deriving DecidableEq

/-- The `setattr` loop of main.py `update_issue` (lines 327-329): only the
fields present in the payload are written. -/
def applyUpdate (u : IssueUpdate) (i : Issue) : Issue :=
  { i with
    title := u.title.getD i.title,
    description := u.description.getD i.description,
    status := u.status.getD i.status,
    priority := u.priority.getD i.priority,
    assignee := u.assignee.getD i.assignee,
    reporter := u.reporter.getD i.reporter }

/-- main.py `update_issue` (lines 305-336): look the record up, check the
optimistic-locking version if one was supplied, then apply the provided
fields, increment `version`, refresh `updated_at` (the model's
`onupdate=func.now()`) and persist.  The returned store is unchanged on
either failure. -/
def update_issue (issue_id : Nat) (u : IssueUpdate) (now : Nat)
    (store : List Issue) : List Issue × Except StoreError Issue :=
  match store.find? (fun i => i.id == issue_id) with
  | none => (store, .error .NotFound)
  | some db_issue =>
    let updated : Issue :=
      { applyUpdate u db_issue with
        version := db_issue.version + 1, updated_at := now }
    let committed : List Issue × Except StoreError Issue :=
      (store.map (fun i => if i.id == issue_id then updated else i), .ok updated)
    match u.version with
    | some expected =>
        if db_issue.version == expected then committed
        else (store, .error (.VersionConflict expected db_issue.version))
    | none => committed

/-- main.py `delete_issue` (lines 339-350). -/
def delete_issue (issue_id : Nat) (store : List Issue) :
    List Issue × Except StoreError Unit :=
  match store.find? (fun i => i.id == issue_id) with
  | none => (store, .error .NotFound)
  | some _ => (store.filter (fun i => !(i.id == issue_id)), .ok ())

/-- A bulk update payload, from schemas.py `IssueBulkUpdate`: only status,
priority and assignee can be set, each optionally, and the nullable
`assignee` can only be given a value, never cleared. -/
structure IssueBulkUpdate where
  issue_ids : List Nat
  status : Option StatusEnum := none
  priority : Option PriorityEnum := none
  assignee : Option String := none

/-- The per-record body of the main.py `bulk_update_issues` loop (lines
201-209): apply each non-null field, unconditionally increment `version`;
`updated_at` refreshes through the model's `onupdate` hook on commit. -/
def applyBulkFields (b : IssueBulkUpdate) (now : Nat) (i : Issue) : Issue :=
  { i with
    status := b.status.getD i.status,
    priority := b.priority.getD i.priority,
    assignee := match b.assignee with
      | some a => some a
      | none => i.assignee,
    version := i.version + 1,
    updated_at := now }

/-- main.py `bulk_update_issues` (lines 183-217): load the records matching
the requested ids (requested ids with no record are silently skipped), fail
with 404 only when nothing matched, otherwise update every match with no
version check and report the count and ids of the matches. -/
def bulk_update_issues (b : IssueBulkUpdate) (now : Nat) (store : List Issue) :
    List Issue × Except StoreError (Nat × List Nat) :=
  let issues := store.filter (fun i => b.issue_ids.contains i.id)
  if issues.isEmpty then (store, .error .NotFound)
  else
    (store.map (fun i =>
        if b.issue_ids.contains i.id then applyBulkFields b now i else i),
     .ok (issues.length, issues.map (fun i => i.id)))

/-- main.py `bulk_delete_issues` (lines 220-246): same matching semantics as
the bulk update; deletes every match and reports their count and ids. -/
def bulk_delete_issues (issue_ids : List Nat) (store : List Issue) :
    List Issue × Except StoreError (Nat × List Nat) :=
  let issues := store.filter (fun i => issue_ids.contains i.id)
  if issues.isEmpty then (store, .error .NotFound)
  else
    (store.filter (fun i => !issue_ids.contains i.id),
     .ok (issues.length, issues.map (fun i => i.id)))

/-- SQL `LIKE` pattern matching over characters, case-insensitively (the
semantics of SQLAlchemy's `ilike`): `%` matches any sequence, `_` matches
exactly one character, any other pattern character matches one input
character up to lowercasing. -/
def likeMatch : List Char → List Char → Bool
  | [], s => s.isEmpty
  | p :: ps, s =>
    if p = '%' then s.tails.any (fun t => likeMatch ps t)
    else
      match s with
      | [] => false
      | c :: s' => (p = '_' || p.toLower == c.toLower) && likeMatch ps s'

/-- `column ILIKE pattern` on a non-null column. -/
def ilike (col pattern : String) : Bool :=
  likeMatch pattern.data col.data

/-- The search predicate of main.py `list_issues` (lines 291-298): the term
is wrapped as `f"%{search}%"` and matched with `ilike` against the title or
the description; a SQL `NULL` description never matches. -/
def searchFilter (searchTerm : String) (i : Issue) : Bool :=
  let pat := "%" ++ searchTerm ++ "%"
  ilike i.title pat ||
    (match i.description with
     | some d => ilike d pat
     | none => false)

/-- The query parameters of main.py `list_issues`. -/
structure ListQuery where
  status_filter : Option StatusEnum := none
  priority : Option PriorityEnum := none
  assignee : Option String := none
  search : Option String := none

/-- The filtering part of main.py `list_issues` (lines 282-298).  Each stage
is guarded by Python truthiness: an absent parameter skips its filter, and
for the string parameters the empty string is falsy and also skips the
filter. -/
def filteredIssues (q : ListQuery) (store : List Issue) : List Issue :=
  let r1 := match q.status_filter with
    | some st => store.filter (fun i => i.status == st)
    | none => store
  let r2 := match q.priority with
    | some pr => r1.filter (fun i => i.priority == pr)
    | none => r1
  let r3 := match q.assignee with
    | some a => if a.isEmpty then r2 else r2.filter (fun i => i.assignee == some a)
    | none => r2
  match q.search with
  | some s => if s.isEmpty then r3 else r3.filter (searchFilter s)
  | none => r3

/-- `ORDER BY created_at DESC`: a record sorts before another when its
creation time is at least as large. -/
def createdDesc (a b : Issue) : Prop :=
  b.created_at ≤ a.created_at

instance : DecidableRel createdDesc :=
  fun a b => Nat.decLe b.created_at a.created_at

instance : IsTotal Issue createdDesc :=
  ⟨fun a b => Nat.le_total b.created_at a.created_at⟩

instance : IsTrans Issue createdDesc :=
  ⟨fun _ _ _ hab hbc => Nat.le_trans hbc hab⟩

/-- Stable descending sort on `created_at` (`ORDER BY created_at DESC`;
ties keep the underlying insertion order). -/
def sortIssues (l : List Issue) : List Issue :=
  List.insertionSort createdDesc l

/-- main.py `list_issues` (lines 262-302): filter, order by `created_at`
descending, then `offset(skip).limit(limit)`. -/
def list_issues (q : ListQuery) (skip limit : Nat) (store : List Issue) :
    List Issue :=
  ((sortIssues (filteredIssues q store)).drop skip).take limit

/-- Count of records with the given status (`db.query(Issue).filter(...)
.count()`). -/
def countStatus (store : List Issue) (s : StatusEnum) : Nat :=
  (store.filter (fun i => i.status == s)).length

/-- Count of records with the given priority. -/
def countPriority (store : List Issue) (p : PriorityEnum) : Nat :=
  (store.filter (fun i => i.priority == p)).length

/-- Count of records assigned to the given assignee. -/
def countAssignee (store : List Issue) (a : String) : Nat :=
  (store.filter (fun i => i.assignee == some a)).length

/-- Count of records with a SQL-`NULL` assignee. -/
def countUnassigned (store : List Issue) : Nat :=
  (store.filter (fun i => i.assignee == none)).length

/-- Iteration order of the `StatusEnum` members (`for status_enum in
StatusEnum`). -/
def statusList : List StatusEnum :=
  [.OPEN, .IN_PROGRESS, .RESOLVED, .CLOSED]

/-- Iteration order of the `PriorityEnum` members. -/
def priorityList : List PriorityEnum :=
  [.LOW, .MEDIUM, .HIGH, .CRITICAL]

/-- The distinct non-null assignee values (`GROUP BY assignee` over the
records where `assignee IS NOT NULL`). -/
def assigneeValues (store : List Issue) : List String :=
  (store.filterMap (fun i => i.assignee)).dedup

/-- The stats report shape, from schemas.py `IssueStats`; the three dicts
are modelled as key/count pair lists. -/
structure IssueStats where
  total_issues : Nat
  by_status : List (String × Nat)
  by_priority : List (String × Nat)
  by_assignee : List (String × Nat)

/-- main.py `get_issue_stats` (lines 62-100): total count, one zero-filled
bucket per enum member for status and priority, grouped counts per distinct
assignee plus the synthetic `"unassigned"` bucket added last. -/
def get_issue_stats (store : List Issue) : IssueStats :=
  { total_issues := store.length,
    by_status := statusList.map (fun s => (s.value, countStatus store s)),
    by_priority := priorityList.map (fun p => (p.value, countPriority store p)),
    by_assignee :=
      (assigneeValues store).map (fun a => (a, countAssignee store a))
        ++ [("unassigned", countUnassigned store)] }

/-- The summary report shape, from schemas.py `IssueSummary`. -/
structure IssueSummary where
  total_issues : Nat
  open_issues : Nat
  in_progress_issues : Nat
  resolved_issues : Nat
  closed_issues : Nat
  critical_priority : Nat
  high_priority : Nat
  medium_priority : Nat
  low_priority : Nat

/-- main.py `get_issue_summary` (lines 103-120): nine independent count
queries. -/
def get_issue_summary (store : List Issue) : IssueSummary :=
  { total_issues := store.length,
    open_issues := (store.filter (fun i => i.status == .OPEN)).length,
    in_progress_issues := (store.filter (fun i => i.status == .IN_PROGRESS)).length,
    resolved_issues := (store.filter (fun i => i.status == .RESOLVED)).length,
    closed_issues := (store.filter (fun i => i.status == .CLOSED)).length,
    critical_priority := (store.filter (fun i => i.priority == .CRITICAL)).length,
    high_priority := (store.filter (fun i => i.priority == .HIGH)).length,
    medium_priority := (store.filter (fun i => i.priority == .MEDIUM)).length,
    low_priority := (store.filter (fun i => i.priority == .LOW)).length }

/-- Does `s` start with `t`, comparing characters case-insensitively?
(Spec-side notion used to state the search property.) -/
def ciStartsWith : List Char → List Char → Bool
  | [], _ => true
  | _ :: _, [] => false
  | c :: t, d :: s => (c.toLower == d.toLower) && ciStartsWith t s

/-- Does `s` contain `t` as a case-insensitive contiguous substring? -/
def ciSubstr (t s : List Char) : Bool :=
  s.tails.any (fun v => ciStartsWith t v)

/-- Spec-side predicate: `hay` contains `term` as a case-insensitive
substring. -/
def containsCI (hay term : String) : Bool :=
  ciSubstr term.data hay.data

/-- Spec-side per-record query predicate, written from the specification's
words: exact status, priority and assignee match, and a case-insensitive
substring search over title or description, all combined by logical AND. -/
def specMatches (q : ListQuery) (i : Issue) : Bool :=
  (match q.status_filter with
   | some st => i.status == st
   | none => true)
  && (match q.priority with
      | some pr => i.priority == pr
      | none => true)
  && (match q.assignee with
      | some a => i.assignee == some a
      | none => true)
  && (match q.search with
      | some s => containsCI i.title s
          || (match i.description with
              | some d => containsCI d s
              | none => false)
      | none => true)

/-- The per-record predicate actually applied by the code's filter chain
(truthiness skips included), used to state `filteredIssues` as one filter. -/
def codeMatches (q : ListQuery) (i : Issue) : Bool :=
  (match q.status_filter with
   | some st => i.status == st
   | none => true)
  && (match q.priority with
      | some pr => i.priority == pr
      | none => true)
  && (match q.assignee with
      | some a => if a.isEmpty then true else i.assignee == some a
      | none => true)
  && (match q.search with
      | some s => if s.isEmpty then true else searchFilter s i
      | none => true)

/-- A search term with no SQL LIKE wildcard characters. -/
def wildcardFree (s : String) : Prop :=
  ∀ c ∈ s.data, c ≠ '%' ∧ c ≠ '_'

/-- Sample record used to instantiate the single-update theorems. -/
def sampleIssue : Issue :=
  { id := 1, title := "Fix login bug", description := some "Crash on login",
    status := .OPEN, priority := .HIGH, assignee := some "alice",
    reporter := some "bob", created_at := 10, updated_at := 10, version := 1 }

/-- Sample record used to instantiate the bulk-operation theorems. -/
def sampleIssue2 : Issue :=
  { id := 2, title := "Add dark mode", description := none,
    status := .IN_PROGRESS, priority := .LOW, assignee := none,
    reporter := none, created_at := 20, updated_at := 20, version := 3 }

/-- Sample create payload. -/
def sampleCreate : IssueCreate :=
  { title := "New issue", description := none, status := .OPEN,
    priority := .MEDIUM, assignee := none, reporter := none }

/-- C1: for every stored issue found by id, an update request whose
`expectedVersion` differs from the stored version fails with
`VersionConflict` carrying both the expected and the actual version, and
the store (hence the issue record, its fields, timestamps and version) is
returned completely unchanged. -/
theorem update_stale_version_conflict (issue_id : Nat) (u : IssueUpdate)
    (now : Nat) (store : List Issue) (i : Issue) (expected : Nat)
    (hfind : store.find? (fun j => j.id == issue_id) = some i)
    (hv : u.version = some expected) (hne : i.version ≠ expected) :
    update_issue issue_id u now store =
      (store, .error (.VersionConflict expected i.version)) := by
  unfold update_issue
  rw [hfind, hv]
  simp [hne]

/-- Witness for C1 at a concrete store: the stored version is 1, the caller
expects 2, the call fails with `VersionConflict 2 1` and the store is
untouched. -/
theorem update_stale_version_conflict_witness :
    update_issue 1 { status := some .CLOSED, version := some 2 } 99 [sampleIssue] =
      ([sampleIssue], .error (.VersionConflict 2 1)) :=
  update_stale_version_conflict 1 { status := some .CLOSED, version := some 2 }
    99 [sampleIssue] sampleIssue 2 rfl rfl (by decide)

/-- The 5-data-row CSV input of the spec's import example: the third data
row has a whitespace-only title, which trims to the empty string. -/
def fiveRows : List CSVRow :=
  [ { title := some "Row one" },
    { title := some "Row two" },
    { title := some "   " },
    { title := some "Row four" },
    { title := some "Row five" } ]

/-- C2: the code's actual behaviour on the 5-row file whose third data row
has an empty (whitespace-only) title.  The counts are as the spec says
(`total_rows=5, successful=4, failed=1`) and the failing row is numbered 4,
but the recorded error message is `"Parsing error: ..."` — the pydantic
`ValidationError` from constructing `IssueCreate` with an empty title
(min_length=1) is raised before the importer's own empty-title check at
csv_import.py lines 57-62 can run, so the message the spec promises,
`"Title is required and cannot be empty"`, is never produced. -/
theorem csv_import_empty_title_actual_error :
    (import_issues_from_csv fiveRows [] 1 0).1.total_rows = 5
    ∧ (import_issues_from_csv fiveRows [] 1 0).1.successful = 4
    ∧ (import_issues_from_csv fiveRows [] 1 0).1.failed = 1
    ∧ (import_issues_from_csv fiveRows [] 1 0).1.errors
        = [{ row := 4, error := "Parsing error: " ++ validationErrorMsg }]
    ∧ ("Parsing error: " ++ validationErrorMsg)
        ≠ "Title is required and cannot be empty" := by
  refine ⟨by decide, by decide, by decide, by decide, by decide⟩

/-- C3: `version` is 1 at creation; a successful single update returns the
record with its version incremented by exactly 1; a bulk update leaves every
record's version either unchanged (not matched, or nothing matched) or
incremented by exactly 1, and increments it by exactly 1 for every record
whose id was matched in a successful bulk update — so no operation ever
decrements or resets a version. -/
theorem version_lifecycle :
    (∀ c newId now store, ((create_issue c newId now store).2).version = 1)
    ∧ (∀ issue_id u now store i r,
        store.find? (fun j => j.id == issue_id) = some i →
        (update_issue issue_id u now store).2 = .ok r →
        r.version = i.version + 1)
    ∧ (∀ (b : IssueBulkUpdate) (now : Nat) (store : List Issue) (n : Nat)
          (i : Issue), store[n]? = some i →
        ∃ j, ((bulk_update_issues b now store).1)[n]? = some j
          ∧ (j.version = i.version ∨ j.version = i.version + 1))
    ∧ (∀ (b : IssueBulkUpdate) (now : Nat) (store : List Issue) (n : Nat)
          (i : Issue), store[n]? = some i →
        (store.filter (fun x => b.issue_ids.contains x.id)).isEmpty = false →
        b.issue_ids.contains i.id = true →
        ∃ j, ((bulk_update_issues b now store).1)[n]? = some j
          ∧ j.version = i.version + 1) := by
  refine ⟨fun c newId now store => rfl, ?_, ?_, ?_⟩
  · intro issue_id u now store i r hfind hok
    unfold update_issue at hok
    rw [hfind] at hok
    cases hv : u.version with
    | none =>
        rw [hv] at hok
        simp only [Except.ok.injEq] at hok
        rw [← hok]
    | some expected =>
        rw [hv] at hok
        by_cases he : i.version == expected
        · simp only [he, if_true, Except.ok.injEq] at hok
          rw [← hok]
        · simp only [he, Bool.false_eq_true, if_false] at hok
          exact absurd hok (by simp)
  · intro b now store n i hi
    unfold bulk_update_issues
    by_cases hempty :
        (store.filter (fun x => b.issue_ids.contains x.id)).isEmpty = true
    · rw [if_pos hempty]
      exact ⟨i, hi, Or.inl rfl⟩
    · rw [if_neg hempty]
      simp only [List.getElem?_map, hi, Option.map_some]
      by_cases hc : b.issue_ids.contains i.id = true
      · exact ⟨applyBulkFields b now i, congrArg some (if_pos hc), Or.inr rfl⟩
      · exact ⟨i, congrArg some (if_neg hc), Or.inl rfl⟩
  · intro b now store n i hi hempty hc
    unfold bulk_update_issues
    rw [if_neg (by rw [hempty]; exact Bool.false_ne_true)]
    simp only [List.getElem?_map, hi, Option.map_some]
    exact ⟨applyBulkFields b now i, congrArg some (if_pos hc), rfl⟩

/-- Witness for C3 at concrete inputs: a fresh create has version 1; a
successful update of the version-1 sample record yields version 2; a bulk
update matching the sample record with version 3 yields version 4. -/
theorem version_lifecycle_witness :
    ((create_issue sampleCreate 7 3 []).2).version = 1
    ∧ (update_issue 1 { status := some StatusEnum.CLOSED } 99 [sampleIssue]).2
        = .ok { sampleIssue with status := .CLOSED, version := 2, updated_at := 99 }
    ∧ ({ sampleIssue with status := StatusEnum.CLOSED, version := 2, updated_at := 99 } : Issue).version = sampleIssue.version + 1
    ∧ (∃ j, ((bulk_update_issues { issue_ids := [2], priority := some .HIGH } 50
          [sampleIssue2]).1)[0]? = some j ∧ j.version = sampleIssue2.version + 1) :=
  ⟨version_lifecycle.1 sampleCreate 7 3 [],
   rfl,
   version_lifecycle.2.1 1 { status := some StatusEnum.CLOSED } 99 [sampleIssue]
     sampleIssue _ rfl rfl,
   version_lifecycle.2.2.2 { issue_ids := [2], priority := some .HIGH } 50
     [sampleIssue2] 0 sampleIssue2 (by decide) (by decide) (by decide)⟩

/-- C10: in a bulk update, an omitted (`null`) field leaves that field of
every record unchanged; no bulk update input can make a record's assignee
absent; and when status, priority and assignee are all omitted, every record
is either untouched (not matched / nothing matched) or changed only in
`version` and `updated_at`. -/
theorem bulk_update_frame (b : IssueBulkUpdate) (now : Nat)
    (store : List Issue) (n : Nat) (i : Issue) (hi : store[n]? = some i) :
    ∃ j, ((bulk_update_issues b now store).1)[n]? = some j
      ∧ (b.assignee = none → j.assignee = i.assignee)
      ∧ (b.status = none → j.status = i.status)
      ∧ (b.priority = none → j.priority = i.priority)
      ∧ (j.assignee = none → i.assignee = none)
      ∧ (b.status = none → b.priority = none → b.assignee = none →
          (j = i ∨ j = { i with version := i.version + 1, updated_at := now })) := by
  unfold bulk_update_issues
  by_cases hempty :
      (store.filter (fun x => b.issue_ids.contains x.id)).isEmpty = true
  · rw [if_pos hempty]
    exact ⟨i, hi, fun _ => rfl, fun _ => rfl, fun _ => rfl, fun h => h,
      fun _ _ _ => Or.inl rfl⟩
  · rw [if_neg hempty]
    simp only [List.getElem?_map, hi, Option.map_some]
    by_cases hc : b.issue_ids.contains i.id = true
    · refine ⟨applyBulkFields b now i, congrArg some (if_pos hc), ?_, ?_, ?_, ?_, ?_⟩
      · intro ha
        simp [applyBulkFields, ha]
      · intro hs
        simp [applyBulkFields, hs]
      · intro hp
        simp [applyBulkFields, hp]
      · intro hj
        cases ha : b.assignee with
        | none => simpa [applyBulkFields, ha] using hj
        | some a => simp [applyBulkFields, ha] at hj
      · intro hs hp ha
        refine Or.inr ?_
        simp [applyBulkFields, hs, hp, ha]
    · exact ⟨i, congrArg some (if_neg hc), fun _ => rfl, fun _ => rfl,
        fun _ => rfl, fun h => h, fun _ _ _ => Or.inl rfl⟩

/-- Witness for C10: bulk-updating the sample record with all three fields
omitted yields a record differing only in `version` and `updated_at`. -/
theorem bulk_update_frame_witness :
    ∃ j, ((bulk_update_issues { issue_ids := [1, 2] } 77 [sampleIssue2]).1)[0]?
        = some j
      ∧ (({ issue_ids := [1, 2] } : IssueBulkUpdate).assignee = none →
          j.assignee = sampleIssue2.assignee)
      ∧ (({ issue_ids := [1, 2] } : IssueBulkUpdate).status = none →
          j.status = sampleIssue2.status)
      ∧ (({ issue_ids := [1, 2] } : IssueBulkUpdate).priority = none →
          j.priority = sampleIssue2.priority)
      ∧ (j.assignee = none → sampleIssue2.assignee = none)
      ∧ (({ issue_ids := [1, 2] } : IssueBulkUpdate).status = none →
          ({ issue_ids := [1, 2] } : IssueBulkUpdate).priority = none →
          ({ issue_ids := [1, 2] } : IssueBulkUpdate).assignee = none →
          (j = sampleIssue2 ∨ j = { sampleIssue2 with
              version := sampleIssue2.version + 1, updated_at := 77 })) :=
  bulk_update_frame { issue_ids := [1, 2] } 77 [sampleIssue2] 0 sampleIssue2
    (by decide)

/-- Whether a CSV row parses successfully; this depends on the row content
only, not on the row number or any other row. -/
def rowOk (row : CSVRow) : Bool :=
  match parseRowCore row with
  | .ok _ => true
  | .error _ => false

/-- The filtered successes and failures of a list partition its length. -/
theorem length_filter_not_add {α : Type} (p : α → Bool) (l : List α) :
    (l.filter p).length + (l.filter (fun a => !p a)).length = l.length := by
  induction l with
  | nil => rfl
  | cons a l ih =>
      cases h : p a <;> simp [List.filter_cons, h] <;> omega

/-- Row-by-row characterization of the import loop started at row number
`m`: the counters are pointwise functions of the individual rows, and every
recorded error points at a real failing row. -/
theorem importRows_spec (rows : List CSVRow) (m : Nat) (store : List Issue)
    (nextId now : Nat) :
    (importRows rows m store nextId now).1.total_rows = rows.length
    ∧ (importRows rows m store nextId now).1.successful
        = (rows.filter rowOk).length
    ∧ (importRows rows m store nextId now).1.failed
        = (rows.filter (fun r => !rowOk r)).length
    ∧ (importRows rows m store nextId now).1.errors.length
        = (importRows rows m store nextId now).1.failed
    ∧ ∀ e ∈ (importRows rows m store nextId now).1.errors,
        ∃ k r, rows[k]? = some r ∧ e.row = m + k ∧ rowOk r = false := by
  induction rows generalizing m store nextId with
  | nil =>
      refine ⟨rfl, rfl, rfl, rfl, ?_⟩
      intro e he
      cases he
  | cons row rest ih =>
      cases hp : parseRowCore row with
      | error msg =>
          have hok : rowOk row = false := by simp [rowOk, hp]
          obtain ⟨ih1, ih2, ih3, ih4, ih5⟩ := ih (m + 1) store nextId
          simp only [importRows, parse_csv_row, hp, List.filter_cons, hok,
            Bool.false_eq_true, if_false, Bool.not_false, if_true,
            List.length_cons]
          refine ⟨by rw [ih1], by rw [ih2], by rw [ih3], by rw [ih4], ?_⟩
          intro e he
          rcases List.mem_cons.mp he with he | he
          · exact ⟨0, row, by simp, by simp [he], hok⟩
          · obtain ⟨k, r, hk, hrow, hro⟩ := ih5 e he
            exact ⟨k + 1, r, by simpa using hk, by omega, hro⟩
      | ok issue =>
          have hok : rowOk row = true := by simp [rowOk, hp]
          obtain ⟨ih1, ih2, ih3, ih4, ih5⟩ :=
            ih (m + 1) (store ++ [createRecord issue nextId now]) (nextId + 1)
          simp only [importRows, parse_csv_row, hp, List.filter_cons, hok,
            if_true, Bool.not_true, Bool.false_eq_true, if_false,
            List.length_cons]
          refine ⟨by rw [ih1], by rw [ih2], by rw [ih3], by rw [ih4], ?_⟩
          intro e he
          obtain ⟨k, r, hk, hrow, hro⟩ := ih5 e he
          exact ⟨k + 1, r, by simpa using hk, by omega, hro⟩

/-- C4: every import result satisfies `total_rows = successful + failed`;
the success and failure counts are pointwise functions of the individual
rows (so each row lands in exactly one of the two counters and one row's
failure cannot change another row's outcome or the running counts); there
is one recorded error per failed row; and every recorded error names the
row number (data rows start at 2) of a genuinely failing row together with
a message. -/
theorem import_counts (rows : List CSVRow) (store : List Issue)
    (nextId now : Nat) :
    (import_issues_from_csv rows store nextId now).1.total_rows
        = (import_issues_from_csv rows store nextId now).1.successful
          + (import_issues_from_csv rows store nextId now).1.failed
    ∧ (import_issues_from_csv rows store nextId now).1.total_rows = rows.length
    ∧ (import_issues_from_csv rows store nextId now).1.successful
        = (rows.filter rowOk).length
    ∧ (import_issues_from_csv rows store nextId now).1.failed
        = (rows.filter (fun r => !rowOk r)).length
    ∧ (import_issues_from_csv rows store nextId now).1.errors.length
        = (import_issues_from_csv rows store nextId now).1.failed
    ∧ ∀ e ∈ (import_issues_from_csv rows store nextId now).1.errors,
        ∃ k r, rows[k]? = some r ∧ e.row = 2 + k ∧ rowOk r = false := by
  unfold import_issues_from_csv
  obtain ⟨h1, h2, h3, h4, h5⟩ := importRows_spec rows 2 store nextId now
  exact ⟨by rw [h1, h2, h3, length_filter_not_add], h1, h2, h3, h4, h5⟩

/-- Witness for C4 on a concrete two-row input (one good row, one row with
a missing title). -/
theorem import_counts_witness :
    (import_issues_from_csv [{ title := some "Good row" }, { title := none }]
        [] 1 0).1.total_rows
      = (import_issues_from_csv [{ title := some "Good row" }, { title := none }]
          [] 1 0).1.successful
        + (import_issues_from_csv [{ title := some "Good row" }, { title := none }]
            [] 1 0).1.failed :=
  (import_counts [{ title := some "Good row" }, { title := none }] [] 1 0).1

/-- C5: a bulk update fails with `NotFound` exactly when no requested id
matches a stored record; the only possible bulk error is `NotFound` (never a
per-id error or a version conflict); a failed bulk update leaves the store
unchanged; a successful one reports exactly the matched records' count and
ids and rewrites exactly the matching records; and bulk delete has the same
matching semantics, removing exactly the matches. -/
theorem bulk_matching (b : IssueBulkUpdate) (ids : List Nat) (now : Nat)
    (store : List Issue) :
    ((bulk_update_issues b now store).2 = .error .NotFound
        ↔ ∀ i ∈ store, b.issue_ids.contains i.id = false)
    ∧ (∀ e, (bulk_update_issues b now store).2 = .error e → e = .NotFound)
    ∧ ((bulk_update_issues b now store).2 = .error .NotFound →
        (bulk_update_issues b now store).1 = store)
    ∧ (∀ cnt aids, (bulk_update_issues b now store).2 = .ok (cnt, aids) →
        aids = (store.filter (fun i => b.issue_ids.contains i.id)).map
            (fun i => i.id)
          ∧ cnt = (store.filter (fun i => b.issue_ids.contains i.id)).length
          ∧ (bulk_update_issues b now store).1
              = store.map (fun i => if b.issue_ids.contains i.id
                  then applyBulkFields b now i else i))
    ∧ ((bulk_delete_issues ids store).2 = .error .NotFound
        ↔ ∀ i ∈ store, ids.contains i.id = false)
    ∧ (∀ e, (bulk_delete_issues ids store).2 = .error e → e = .NotFound)
    ∧ (∀ cnt dids, (bulk_delete_issues ids store).2 = .ok (cnt, dids) →
        dids = (store.filter (fun i => ids.contains i.id)).map (fun i => i.id)
          ∧ cnt = (store.filter (fun i => ids.contains i.id)).length
          ∧ (bulk_delete_issues ids store).1
              = store.filter (fun i => !ids.contains i.id)) := by
  have hchar1 : (store.filter (fun i => b.issue_ids.contains i.id)).isEmpty = true
      ↔ ∀ i ∈ store, b.issue_ids.contains i.id = false := by
    simp [List.isEmpty_iff, List.filter_eq_nil_iff]
  have hchar2 : (store.filter (fun i => ids.contains i.id)).isEmpty = true
      ↔ ∀ i ∈ store, ids.contains i.id = false := by
    simp [List.isEmpty_iff, List.filter_eq_nil_iff]
  unfold bulk_update_issues bulk_delete_issues
  by_cases hbe : (store.filter (fun i => b.issue_ids.contains i.id)).isEmpty = true
  all_goals by_cases hde : (store.filter (fun i => ids.contains i.id)).isEmpty = true
  all_goals first
    | rw [if_pos hbe, if_pos hde]
    | rw [if_pos hbe, if_neg hde]
    | rw [if_neg hbe, if_pos hde]
    | rw [if_neg hbe, if_neg hde]
  all_goals refine ⟨?_, ?_, ?_, ?_, ?_, ?_, ?_⟩
  all_goals simp_all

/-- Witness for C5: on a store holding only the sample record with id 2, a
bulk delete for ids {2, 99} silently skips 99, reports count 1 and id list
[2], and removes the record. -/
theorem bulk_matching_witness :
    (bulk_delete_issues [2, 99] [sampleIssue2]).2 = .ok (1, [2])
    ∧ ([2] : List Nat)
        = (([sampleIssue2].filter (fun i => ([2, 99] : List Nat).contains i.id)).map
            (fun i => i.id))
    ∧ (bulk_delete_issues [2, 99] [sampleIssue2]).1 = [] := by
  have h := (bulk_matching { issue_ids := [] } [2, 99] 0 [sampleIssue2]).2.2.2.2.2.2
    1 [2] rfl
  exact ⟨rfl, by simpa using h.1, by simpa using h.2.2⟩

/-- C6: enum normalization is total (a Lean function by construction, so it
never raises) and maps, after trimming and lowercasing: "in progress" and
"in_progress" to IN_PROGRESS, "open"/"resolved"/"closed" to their members,
every other status token (the empty string included) to OPEN, and a missing
status column to OPEN; "low"/"medium"/"high"/"critical" to their members,
every other priority token to MEDIUM, and a missing priority column to
MEDIUM. -/
theorem enum_normalization (s p : String) :
    ((strLower (strTrim s) = "in progress" ∨ strLower (strTrim s) = "in_progress") →
        parseStatusToken s = .IN_PROGRESS)
    ∧ (strLower (strTrim s) = "open" → parseStatusToken s = .OPEN)
    ∧ (strLower (strTrim s) = "resolved" → parseStatusToken s = .RESOLVED)
    ∧ (strLower (strTrim s) = "closed" → parseStatusToken s = .CLOSED)
    ∧ (strLower (strTrim s) ∉
          (["in progress", "in_progress", "open", "resolved", "closed"] : List String) →
        parseStatusToken s = .OPEN)
    ∧ (strLower (strTrim p) = "low" → parsePriorityToken p = .LOW)
    ∧ (strLower (strTrim p) = "medium" → parsePriorityToken p = .MEDIUM)
    ∧ (strLower (strTrim p) = "high" → parsePriorityToken p = .HIGH)
    ∧ (strLower (strTrim p) = "critical" → parsePriorityToken p = .CRITICAL)
    ∧ (strLower (strTrim p) ∉ (["low", "medium", "high", "critical"] : List String) →
        parsePriorityToken p = .MEDIUM)
    ∧ (∀ row : CSVRow, row.status = none → rowStatus row = .OPEN)
    ∧ (∀ row : CSVRow, row.priority = none → rowPriority row = .MEDIUM) := by
  refine ⟨?_, ?_, ?_, ?_, ?_, ?_, ?_, ?_, ?_, ?_, ?_, ?_⟩
  · rintro (h | h) <;> simp [parseStatusToken, h]
  · intro h; simp [parseStatusToken, h]
  · intro h; simp [parseStatusToken, h]
  · intro h; simp [parseStatusToken, h]
  · intro h
    simp only [List.mem_cons, List.not_mem_nil, or_false, not_or] at h
    obtain ⟨h1, h2, h3, h4, h5⟩ := h
    simp [parseStatusToken, h1, h2, h3, h4, h5]
  · intro h; simp [parsePriorityToken, h]
  · intro h; simp [parsePriorityToken, h]
  · intro h; simp [parsePriorityToken, h]
  · intro h; simp [parsePriorityToken, h]
  · intro h
    simp only [List.mem_cons, List.not_mem_nil, or_false, not_or] at h
    obtain ⟨h1, h2, h3, h4⟩ := h
    simp [parsePriorityToken, h1, h2, h3, h4]
  · intro row h
    rw [rowStatus, h]
    decide
  · intro row h
    rw [rowPriority, h]
    decide

/-- Witness for C6: a mixed-case status token with surrounding whitespace
normalizes to IN_PROGRESS, and an unrecognized priority token falls back to
MEDIUM. -/
theorem enum_normalization_witness :
    parseStatusToken "  In Progress " = .IN_PROGRESS
    ∧ parsePriorityToken "urgent" = .MEDIUM :=
  ⟨(enum_normalization "  In Progress " "urgent").1 (Or.inl (by decide)),
   (enum_normalization "  In Progress " "urgent").2.2.2.2.2.2.2.2.2.1 (by decide)⟩

/-- Each record lands in exactly one status bucket, so the four per-status
counts partition the store. -/
theorem status_partition (store : List Issue) :
    countStatus store .OPEN + countStatus store .IN_PROGRESS
      + countStatus store .RESOLVED + countStatus store .CLOSED
      = store.length := by
  induction store with
  | nil => rfl
  | cons i rest ih =>
      cases h : i.status <;>
        simp only [countStatus, List.filter_cons, h, List.length_cons] at ih ⊢ <;>
        simp <;> omega

/-- C9: the stats report carries a count for all four statuses and all four
priorities (zero-filled buckets included), the status counts sum to the
total, the assignee map carries an "unassigned" bucket counting the records
with no assignee, and every status and priority count of the summary report
equals the corresponding stats count. -/
theorem stats_summary_consistency (store : List Issue) :
    countStatus store .OPEN + countStatus store .IN_PROGRESS
        + countStatus store .RESOLVED + countStatus store .CLOSED
      = (get_issue_stats store).total_issues
    ∧ (∀ s : StatusEnum,
        (s.value, countStatus store s) ∈ (get_issue_stats store).by_status)
    ∧ (∀ p : PriorityEnum,
        (p.value, countPriority store p) ∈ (get_issue_stats store).by_priority)
    ∧ ("unassigned", countUnassigned store) ∈ (get_issue_stats store).by_assignee
    ∧ (get_issue_summary store).total_issues = (get_issue_stats store).total_issues
    ∧ (get_issue_summary store).open_issues = countStatus store .OPEN
    ∧ (get_issue_summary store).in_progress_issues = countStatus store .IN_PROGRESS
    ∧ (get_issue_summary store).resolved_issues = countStatus store .RESOLVED
    ∧ (get_issue_summary store).closed_issues = countStatus store .CLOSED
    ∧ (get_issue_summary store).critical_priority = countPriority store .CRITICAL
    ∧ (get_issue_summary store).high_priority = countPriority store .HIGH
    ∧ (get_issue_summary store).medium_priority = countPriority store .MEDIUM
    ∧ (get_issue_summary store).low_priority = countPriority store .LOW := by
  refine ⟨status_partition store, ?_, ?_, ?_, rfl, rfl, rfl, rfl, rfl, rfl,
    rfl, rfl, rfl⟩
  · intro s
    cases s <;> simp [get_issue_stats, statusList]
  · intro p
    cases p <;> simp [get_issue_stats, priorityList]
  · simp [get_issue_stats]

/-- The empty pattern is a case-insensitive prefix of anything, so the empty
term is a substring of every string. -/
theorem ciSubstr_nil (s : List Char) : ciSubstr [] s = true := by
  cases s <;> simp [ciSubstr, List.tails, ciStartsWith]

/-- A lone `%` pattern matches every string: the empty suffix is always
among the tails. -/
theorem likeMatch_pct (s : List Char) : likeMatch ['%'] s = true := by
  induction s with
  | nil => rfl
  | cons c s ih => simp_all [likeMatch, List.tails]

/-- On a wildcard-free pattern followed by `%`, LIKE matching is exactly a
case-insensitive prefix test. -/
theorem likeMatch_append_pct (t : List Char)
    (hw : ∀ c ∈ t, c ≠ '%' ∧ c ≠ '_') (s : List Char) :
    likeMatch (t ++ ['%']) s = ciStartsWith t s := by
  induction t generalizing s with
  | nil => simp [likeMatch_pct, ciStartsWith]
  | cons c t ih =>
      have hc := hw c (List.mem_cons_self c t)
      have hw' : ∀ d ∈ t, d ≠ '%' ∧ d ≠ '_' :=
        fun d hd => hw d (List.mem_cons_of_mem c hd)
      cases s with
      | nil =>
          simp [likeMatch, ciStartsWith, hc.1]
      | cons d s =>
          simp [likeMatch, ciStartsWith, hc.1, hc.2, ih hw']

/-- On a wildcard-free search term, the code's `ILIKE '%term%'` test agrees
with the spec's case-insensitive substring predicate. -/
theorem ilike_eq_containsCI (t : String) (hw : wildcardFree t) (hay : String) :
    ilike hay ("%" ++ t ++ "%") = containsCI hay t := by
  have hdata : ("%" ++ t ++ "%").data = '%' :: (t.data ++ ['%']) := rfl
  unfold ilike containsCI ciSubstr
  rw [hdata]
  have hstep : likeMatch ('%' :: (t.data ++ ['%'])) hay.data
      = hay.data.tails.any (fun v => likeMatch (t.data ++ ['%']) v) := by
    simp [likeMatch]
  rw [hstep]
  have hfun : (fun v => likeMatch (t.data ++ ['%']) v)
      = fun v => ciStartsWith t.data v :=
    funext (fun v => likeMatch_append_pct t.data hw v)
  rw [hfun]

/-- Merging two chained filters keeps the predicates in application order. -/
theorem filter_swap_chain {α : Type} (p q : α → Bool) (l : List α) :
    (l.filter p).filter q = l.filter (fun i => p i && q i) := by
  rw [List.filter_filter]
  exact List.filter_congr (fun x _ => Bool.and_comm _ _)

/-- The filter chain of `list_issues` is one filter by the conjunction of
the (truthiness-guarded) stage predicates. -/
theorem filteredIssues_eq_filter (q : ListQuery) (store : List Issue) :
    filteredIssues q store = store.filter (codeMatches q) := by
  obtain ⟨st, pr, asg, srch⟩ := q
  unfold filteredIssues codeMatches
  cases st <;> cases pr <;> cases asg <;> cases srch <;>
    dsimp only [] <;> (try split_ifs) <;>
    simp_all [filter_swap_chain, Bool.and_comm, Bool.and_left_comm,
      Bool.and_assoc]

/-- A string is `isEmpty` exactly when it is the empty string. -/
theorem strIsEmpty_true_iff (s : String) : s.isEmpty = true ↔ s = "" := by
  constructor
  · intro h
    cases s with
    | mk data =>
        cases data with
        | nil => rfl
        | cons c cs =>
            simp [String.isEmpty, String.endPos, String.utf8ByteSize] at h
            have hb := congrArg String.Pos.byteIdx h
            simp at hb
            have := Char.utf8Size_pos c
            omega
  · intro h
    subst h
    rfl

/-- Under the amendment's hypotheses the code's per-record predicate agrees
with the spec's. -/
theorem codeMatches_eq_spec (q : ListQuery) (i : Issue)
    (ha : ∀ a, q.assignee = some a → a ≠ "")
    (hs : ∀ s, q.search = some s → wildcardFree s) :
    codeMatches q i = specMatches q i := by
  obtain ⟨st, pr, asg, srch⟩ := q
  unfold codeMatches specMatches
  dsimp only
  congr 1
  · congr 1
    cases asg with
    | none => rfl
    | some a =>
        have hne : ¬(a.isEmpty = true) :=
          fun h => (ha a rfl) ((strIsEmpty_true_iff a).mp h)
        show (if a.isEmpty = true then true else i.assignee == some a)
            = (i.assignee == some a)
        rw [if_neg hne]
  · cases srch with
    | none => rfl
    | some s =>
        have hw := hs s rfl
        show (if s.isEmpty = true then true else searchFilter s i)
            = (containsCI i.title s
                || match i.description with
                   | some d => containsCI d s
                   | none => false)
        by_cases hse : s.isEmpty = true
        · have hs0 : s = "" := (strIsEmpty_true_iff s).mp hse
          subst hs0
          rw [if_pos hse]
          have h1 : containsCI i.title "" = true := ciSubstr_nil i.title.data
          rw [h1, Bool.true_or]
        · rw [if_neg hse]
          simp only [searchFilter, ilike_eq_containsCI s hw]

/-- C7 (amended): when the assignee filter value is non-empty and the search
term contains no SQL LIKE wildcard, the filter stage returns exactly the
records satisfying the spec's predicate — exact assignee equality, and
case-insensitive substring search over title or description — with all
supplied filters combined by logical AND. -/
theorem filters_semantics (q : ListQuery) (store : List Issue)
    (ha : ∀ a, q.assignee = some a → a ≠ "")
    (hs : ∀ s, q.search = some s → wildcardFree s) :
    filteredIssues q store = store.filter (specMatches q) := by
  rw [filteredIssues_eq_filter]
  exact List.filter_congr (fun x _ => codeMatches_eq_spec q x ha hs)

/-- Record exhibiting the divergences of the unamended C7. -/
def cexIssue : Issue :=
  { id := 1, title := "abc", description := none, status := .OPEN,
    priority := .MEDIUM, assignee := some "bob", reporter := none,
    created_at := 0, updated_at := 0, version := 1 }

/-- Query exhibiting the divergences of the unamended C7: an empty-string
assignee filter and a search term containing the `_` LIKE wildcard. -/
def cexQuery : ListQuery :=
  { assignee := some "", search := some "a_c" }

/-- Counterexample to C7 as stated: querying a store holding only a record
assigned to "bob" and titled "abc" with `assignee=""` and `search="a_c"`
returns that record, although its assignee does not equal the given string
`""` and neither its title nor its (absent) description contains `"a_c"` as
a substring — the code skips the falsy empty-string assignee filter and the
`_` in the search term acts as a one-character LIKE wildcard that matches
the `b` of `"abc"`. -/
theorem filters_claim_counterexample :
    filteredIssues cexQuery [cexIssue] = [cexIssue]
    ∧ specMatches cexQuery cexIssue = false
    ∧ [cexIssue].filter (specMatches cexQuery) = []
    ∧ (cexIssue.assignee == some "") = false
    ∧ containsCI cexIssue.title "a_c" = false := by
  refine ⟨by decide, by decide, by decide, by decide, by decide⟩

/-- Witness for the amended C7 at a concrete query (non-empty assignee,
wildcard-free search term) on a two-record store: exactly the matching
record survives. -/
theorem filters_semantics_witness :
    filteredIssues { assignee := some "alice", search := some "Bug" }
        [sampleIssue, sampleIssue2]
      = ([sampleIssue, sampleIssue2].filter
          (specMatches { assignee := some "alice", search := some "Bug" }))
    ∧ ([sampleIssue, sampleIssue2].filter
          (specMatches { assignee := some "alice", search := some "Bug" }))
        = [sampleIssue] :=
  ⟨filters_semantics { assignee := some "alice", search := some "Bug" }
      [sampleIssue, sampleIssue2]
      (fun a h => by
        injection h with h
        rw [← h]
        decide)
      (fun s h => by
        injection h with h
        rw [← h]
        unfold wildcardFree
        decide),
   by decide⟩

/-- Inserting a record into a list touches no relative order: restricted to
any fixed creation time, the insertion either prepends the new record (all
records it skipped sort strictly earlier, hence have a different creation
time) or leaves the restriction unchanged. -/
theorem filter_orderedInsert (t : Nat) (a : Issue) (l : List Issue) :
    (List.orderedInsert createdDesc a l).filter (fun i => i.created_at == t)
      = if a.created_at == t
        then a :: l.filter (fun i => i.created_at == t)
        else l.filter (fun i => i.created_at == t) := by
  induction l with
  | nil =>
      by_cases hp : a.created_at == t <;>
        simp [List.orderedInsert, List.filter_cons, hp]
  | cons b l ih =>
      unfold List.orderedInsert
      by_cases hr : createdDesc a b
      · rw [if_pos hr]
        by_cases hp : a.created_at == t <;>
          simp [List.filter_cons, hp]
      · rw [if_neg hr]
        have hlt : a.created_at < b.created_at := Nat.lt_of_not_le hr
        by_cases hp : a.created_at == t
        · have hb : (b.created_at == t) = false := by
            have ht : a.created_at = t := by simpa using hp
            simp only [beq_eq_false_iff_ne, ne_eq]
            omega
          simp [List.filter_cons, hb, hp, ih]
        · by_cases hb : b.created_at == t <;>
            simp [List.filter_cons, hb, hp, ih]

/-- The descending sort on creation time is stable: restricted to any fixed
creation time it is the identity, so ties keep the underlying insertion
order. -/
theorem sortIssues_stable (l : List Issue) (t : Nat) :
    (sortIssues l).filter (fun i => i.created_at == t)
      = l.filter (fun i => i.created_at == t) := by
  induction l with
  | nil => rfl
  | cons a l ih =>
      show (List.orderedInsert createdDesc a (sortIssues l)).filter
          (fun i => i.created_at == t) = _
      rw [filter_orderedInsert]
      by_cases hp : a.created_at == t
      · rw [if_pos hp, ih]
        simp [List.filter_cons, hp]
      · rw [if_neg hp, ih]
        simp [List.filter_cons, hp]

/-- C8: the result of `list_issues` is the filtered store ordered by
`created_at` descending and then paginated by `drop skip` / `take limit`
(pagination applied after filtering and ordering); the ordered list is
pairwise non-increasing on `created_at`; ties are broken stably by the
store's insertion order (restricting to one creation time gives back the
filtered store's order); the paginated result stays sorted; and at most
`limit` records are returned. -/
theorem list_order_pagination (q : ListQuery) (skip limit : Nat)
    (store : List Issue) :
    list_issues q skip limit store
        = ((sortIssues (filteredIssues q store)).drop skip).take limit
    ∧ (sortIssues (filteredIssues q store)).Pairwise
        (fun a b => b.created_at ≤ a.created_at)
    ∧ (∀ t, (sortIssues (filteredIssues q store)).filter
          (fun i => i.created_at == t)
        = (filteredIssues q store).filter (fun i => i.created_at == t))
    ∧ (list_issues q skip limit store).Pairwise
        (fun a b => b.created_at ≤ a.created_at)
    ∧ (list_issues q skip limit store).length ≤ limit := by
  have hsorted : (sortIssues (filteredIssues q store)).Pairwise createdDesc :=
    List.sorted_insertionSort createdDesc (filteredIssues q store)
  have hsub : (list_issues q skip limit store).Sublist
      (sortIssues (filteredIssues q store)) :=
    (List.take_sublist _ _).trans (List.drop_sublist _ _)
  exact ⟨rfl, hsorted, fun t => sortIssues_stable (filteredIssues q store) t,
    hsorted.sublist hsub, List.length_take_le _ _⟩

end IssueTracker
